import Mathlib

/-!
Shallow embedding of `ingest_missing.py` (gap-to-replay scheduling core).

The Python source drives replay of missing hourly windows of instrument
telemetry.  This file embeds its pure core:

* `date_list` (source lines 91-112): expand a pair of timestamp strings
  into the list of hourly slice labels, normalizing argument order by
  Python string comparison and stepping with `timedelta(hours=1)`;
* `request_cabled_raw` (lines 51-56): the two pandas rewrites applied to
  the catalog table after download;
* `get_driver` / `get_reader_type` / `is_cabled` (lines 59-88): catalog
  queries;
* `playback` (lines 115-147): command construction, glob gating, and the
  90-second alarm timeout handling, with the filesystem and the wall
  clock supplied as oracles;
* `PreviousIngests.is_in_previous_ingests` (lines 160-172) and the
  pickle load/store pair (lines 154-158);
* the coordinator loop of `main` (lines 202-207).

Python `datetime` values are embedded as records of naturals, Python
dicts as association lists (first binding wins), raised exceptions as
`Except.error`.
-/

/-! ## Calendar arithmetic (embedding of Python `datetime` + `timedelta(hours=1)`) -/

/-- Embedding of a Python `datetime.datetime` value (microseconds are never
used by the source). -/
structure PyDateTime where
  year : Nat
  month : Nat
  day : Nat
  hour : Nat
  minute : Nat
  second : Nat
deriving DecidableEq

/-- Gregorian leap-year rule, as implemented by Python's `calendar`. -/
def isLeap (y : Nat) : Bool :=
  (y % 4 == 0 && y % 100 != 0) || y % 400 == 0

/-- Days in month `m` of year `y`; `0` for out-of-range months. -/
def daysInMonth (y m : Nat) : Nat :=
  if m = 1 ∨ m = 3 ∨ m = 5 ∨ m = 7 ∨ m = 8 ∨ m = 10 ∨ m = 12 then 31
  else if m = 4 ∨ m = 6 ∨ m = 9 ∨ m = 11 then 30
  else if m = 2 then (if isLeap y then 29 else 28)
  else 0

/-- Days of year `y` strictly before month `m`. -/
def daysBeforeMonth (y : Nat) : Nat → Nat
  | 0 => 0
  | m + 1 => daysBeforeMonth y m + daysInMonth y m

/-- Number of days in year `y` (the sum over its twelve months). -/
def daysInYear (y : Nat) : Nat := daysBeforeMonth y 13

/-- Days strictly before year `y`, counting from year 0. -/
def daysBeforeYear : Nat → Nat
  | 0 => 0
  | y + 1 => daysBeforeYear y + daysInYear y

/-- Absolute day index of a date. -/
def daysBefore (d : PyDateTime) : Nat :=
  daysBeforeYear d.year + daysBeforeMonth d.year d.month + (d.day - 1)

/-- Absolute hour index of a datetime (minutes and seconds ignored). -/
def toHours (d : PyDateTime) : Nat := daysBefore d * 24 + d.hour

/-- Validity of a datetime: in-range fields, as `datetime.datetime`
enforces at construction (`MINYEAR = 1`). -/
def validDT (d : PyDateTime) : Bool :=
  1 ≤ d.year && 1 ≤ d.month && d.month ≤ 12 &&
  1 ≤ d.day && d.day ≤ daysInMonth d.year d.month &&
  d.hour ≤ 23 && d.minute ≤ 59 && d.second ≤ 59

/-- Python `dt + timedelta(hours=1)`: add one hour with day, month and
year rollover. -/
def addHour (d : PyDateTime) : PyDateTime :=
  if d.hour + 1 ≤ 23 then { d with hour := d.hour + 1 }
  else if d.day + 1 ≤ daysInMonth d.year d.month then
    { d with hour := 0, day := d.day + 1 }
  else if d.month + 1 ≤ 12 then
    { d with hour := 0, day := 1, month := d.month + 1 }
  else
    { year := d.year + 1, month := 1, day := 1, hour := 0,
      minute := d.minute, second := d.second }

/-- Python `datetime` comparison `a < b`: lexicographic on the six
fields. -/
def dtLt (a b : PyDateTime) : Bool :=
  decide (a.year < b.year) ||
  (a.year == b.year && (decide (a.month < b.month) ||
  (a.month == b.month && (decide (a.day < b.day) ||
  (a.day == b.day && (decide (a.hour < b.hour) ||
  (a.hour == b.hour && (decide (a.minute < b.minute) ||
  (a.minute == b.minute && decide (a.second < b.second))))))))))

/-- Lexicographic order on a datetime truncated to the hour
(year, month, day, hour): "the hour of `a` is at or before the hour of
`b`". -/
def truncLe (a b : PyDateTime) : Bool :=
  decide (a.year < b.year) ||
  (a.year == b.year && (decide (a.month < b.month) ||
  (a.month == b.month && (decide (a.day < b.day) ||
  (a.day == b.day && decide (a.hour ≤ b.hour))))))

/-! ## `strftime` / `strptime` for the two formats the source uses -/

/-- Decimal rendering of `n` left-padded with zeros to width 2
(`strftime` `%m`, `%d`, `%H`). -/
def pad2 (n : Nat) : String :=
  if n < 10 then "0" ++ toString n else toString n

/-- Decimal rendering of `n` left-padded with zeros to width 4
(`strftime` `%Y`). -/
def pad4 (n : Nat) : String :=
  if n < 10 then "000" ++ toString n
  else if n < 100 then "00" ++ toString n
  else if n < 1000 then "0" ++ toString n
  else toString n

/-- `dt.strftime('%Y%m%dT%H')`: the TimeSlice label of a datetime. -/
def strftimeHour (d : PyDateTime) : String :=
  pad4 d.year ++ pad2 d.month ++ pad2 d.day ++ "T" ++ pad2 d.hour

/-- Value of a decimal digit character, if it is one. -/
def digitVal (c : Char) : Option Nat :=
  if c.isDigit then some (c.toNat - 48) else none

/-- Character of `cs` at position `i` (placeholder when out of range). -/
def chAt (cs : List Char) (i : Nat) : Char := cs.getD i '?'

/-- Two-digit decimal field starting at position `i`. -/
def num2 (cs : List Char) (i : Nat) : Option Nat := do
  let a ← digitVal (chAt cs i)
  let b ← digitVal (chAt cs (i + 1))
  pure (a * 10 + b)

/-- Four-digit decimal field starting at position `i`. -/
def num4 (cs : List Char) (i : Nat) : Option Nat := do
  let a ← num2 cs i
  let b ← num2 cs (i + 2)
  pure (a * 100 + b)

/-- `datetime.strptime(s, '%Y-%m-%d %H:%M:%S')`: parse a zero-padded
timestamp; `none` models the `ValueError` raised on malformed input or
out-of-range fields. -/
def strptime (s : String) : Option PyDateTime :=
  let cs := s.data
  if cs.length == 19 && chAt cs 4 == '-' && chAt cs 7 == '-' &&
     chAt cs 10 == ' ' && chAt cs 13 == ':' && chAt cs 16 == ':' then do
    let y ← num4 cs 0
    let mo ← num2 cs 5
    let d ← num2 cs 8
    let h ← num2 cs 11
    let mi ← num2 cs 14
    let se ← num2 cs 17
    let dt : PyDateTime :=
      { year := y, month := mo, day := d, hour := h, minute := mi, second := se }
    if validDT dt then some dt else none
  else none

/-! ## `date_list` (source lines 91-112) -/

/-- The `while date_time < end_date` loop of `date_list`, fuel-indexed:
each step adds one hour and emits the new datetime.  `hourFuel` below
supplies enough fuel that, on valid datetimes, the loop always stops by
its condition (proved in `dateLoop_spec`). -/
def dateLoop : Nat → PyDateTime → PyDateTime → List PyDateTime
  | 0, _, _ => []
  | fuel + 1, cur, stop =>
    if dtLt cur stop then addHour cur :: dateLoop fuel (addHour cur) stop
    else []

/-- Fuel sufficient for `dateLoop` to stop by its condition. -/
def hourFuel (s e : PyDateTime) : Nat := toHours e - toHours s + 2

/-- The sequence of datetimes visited by `date_list` after parsing:
the start, then one per loop iteration. -/
def dateTimesDT (s e : PyDateTime) : List PyDateTime :=
  s :: dateLoop (hourFuel s e) s e

/-- The slice-label list `date_times` built by `date_list` from the
already-parsed and already-ordered pair `(s, e)` (lines 105-112). -/
def dateListDT (s e : PyDateTime) : List String :=
  (dateTimesDT s e).map strftimeHour

/-- Python string comparison on character lists: lexicographic by code
point (a strict initial segment is smaller). -/
def charListLt : List Char → List Char → Bool
  | _, [] => false
  | [], _ :: _ => true
  | c :: cs, d :: ds =>
    if c.toNat < d.toNat then true
    else if c == d then charListLt cs ds
    else false

/-- Python `first_date < second_date` on the raw timestamp strings. -/
def strLt (a b : String) : Bool := charListLt a.data b.data

/-- `date_list(first_date, second_date)` (lines 91-112): order the two
timestamp STRINGS by Python string comparison (lines 98-99 compare the
strings, not parsed dates), parse both, and expand hourly; `none` models
the `ValueError` escaping from `strptime`. -/
def date_list (first_date second_date : String) : Option (List String) :=
  let start_s := if strLt first_date second_date then first_date else second_date
  let end_s := if strLt first_date second_date then second_date else first_date
  match strptime start_s, strptime end_s with
  | some s, some e => some (dateListDT s e)
  | _, _ => none

/-! ## Driver catalog (source lines 39-40, 51-88) -/

/-- One row of the `cabled_drivers_list.txt` table, with the three
columns the source reads (string-typed, per `dtype=str`).  A missing
`Type` cell is the string `"nan"`. -/
structure Row where
  refDes : String
  type : String
  driver : String
deriving DecidableEq

/-- Second rewrite of `request_cabled_raw` (line 55):
`df.loc[df['Reference Designator'] == df['Type'], ['Reference Designator']]
 = df['Reference Designator'].shift(1)`.
`prev` carries the pre-assignment `Reference Designator` of the previous
row (pandas `shift` reads the column before the assignment); for the
first row `shift` yields NaN, embedded as the string `"nan"`. -/
def shiftAssign (prev : Option String) : List Row → List Row
  | [] => []
  | r :: rest =>
    let r2 := if r.refDes = r.type then { r with refDes := prev.getD "nan" } else r
    r2 :: shiftAssign (some r.refDes) rest

/-- First rewrite of `request_cabled_raw` (line 54):
rows whose `Type` is the sentinel `'None'` get their own
`Reference Designator` as `Type`. -/
def noneToRefDes (df : List Row) : List Row :=
  df.map fun r => if r.type = "None" then { r with type := r.refDes } else r

/-- `request_cabled_raw` (lines 51-56) applied to the downloaded table
`df`: the two pandas rewrites, in order. -/
def request_cabled_raw (df : List Row) : List Row :=
  shiftAssign none (noneToRefDes df)

/-- `get_driver` (lines 59-63): `Driver` of the first row matching
`refdes`; `.iloc[0]` raises when no row matches, modelled as `none`. -/
def get_driver (df : List Row) (refdes : String) : Option String :=
  (df.find? fun r => r.refDes == refdes).map Row.driver

/-- `get_reader_type` (lines 66-78): walk the rows matching `refdes` in
file order, appending each `Type` that is not the `'nan'` sentinel. -/
def get_reader_type (df : List Row) (refdes : String) : List String :=
  (df.filter fun r => r.refDes == refdes).foldl
    (fun reader r => if r.type ≠ "nan" then reader ++ [r.type] else reader) []

/-- `is_cabled` (lines 81-88): the filtered sub-table is non-empty. -/
def is_cabled (df : List Row) (refdes : String) : Bool :=
  !(df.filter fun r => r.refDes == refdes).isEmpty

/-! ## `playback` (source lines 115-147) -/

/-- Python `str.split('-')` on the character list: split at every
occurrence of the separator, keeping empty pieces. -/
def splitOnChar (c : Char) : List Char → List (List Char)
  | [] => [[]]
  | x :: xs =>
    match splitOnChar c xs with
    | [] => if x == c then [[], [x]] else [[x]]
    | r :: rs => if x == c then [] :: r :: rs else (x :: r) :: rs

/-- Python `refdes.split('-')`. -/
def pySplit (s : String) (c : Char) : List String :=
  (splitOnChar c s.data).map List.asString

/-- Python `str.lower()` (character-wise). -/
def pyLower (s : String) : String :=
  (s.data.map Char.toLower).asString

/-- A line emitted through `logging`. -/
inductive LogEntry where
  | info (msg : String)
  | warning (msg : String)
deriving DecidableEq

/-- `playback(refdes, event_url, particle_url, missing_dates)`
(lines 115-147).  The filesystem is the oracle `globMatch` (does
`glob.glob(directory)` match anything) and the wall clock is the oracle
`duration` (seconds the `call` would take); `signal.alarm(90)` fires and
raises `TimeoutException` exactly when the call lasts beyond 90 seconds,
in which case the `except` clause logs a warning and `continue`s.
Returns the log lines in order; `.error` models the `IndexError` from
`refdes.split('-')[1]`/`[3]` or from `get_driver` on an unknown
`refdes`. -/
def playback (df : List Row) (refdes event_url particle_url : String)
    (missing_dates : List String) (globMatch : String → Bool)
    (duration : String → Nat) : Except Unit (List LogEntry) :=
  let main_directory := "/rsn_cabled/rsn_data/DVT_Data"
  match get_driver df refdes with
  | none => Except.error ()
  | some driver =>
    let reader_list := get_reader_type df refdes
    let parts := pySplit refdes '-'
    match parts.get? 1, parts.get? 3 with
    | some nodePart, some instrument =>
      let node := pyLower nodePart
      Except.ok <| reader_list.flatMap fun reader =>
        missing_dates.flatMap fun date =>
          let directory := "/".intercalate [main_directory, node, instrument]
            ++ "*".intercalate ["", date, ""]
          if globMatch directory then
            let playback_command :=
              " ".intercalate ["playback", reader, driver, refdes,
                               event_url, particle_url, directory]
            if 90 < duration playback_command then
              [LogEntry.info playback_command,
               LogEntry.warning (playback_command ++
                 " Took more than 90 seconds. Timing out this ingestion.")]
            else
              [LogEntry.info playback_command]
          else []
    | _, _ => Except.error ()

/-- The info-level lines of a log. -/
def infoEntries (logs : List LogEntry) : List String :=
  logs.filterMap fun e => match e with
    | LogEntry.info m => some m
    | LogEntry.warning _ => none

/-! ## The ingest ledger `PreviousIngests` (source lines 150-172) -/

/-- A Python dict mapping strings to lists, as an association list
(first binding wins, like a dict with unique keys). -/
abbrev PyDict (α : Type) := List (String × List α)

/-- Dict lookup: first binding of the key. -/
def dictGet {α : Type} (d : PyDict α) (k : String) : Option (List α) :=
  match d with
  | [] => none
  | kv :: rest => if kv.1 == k then some kv.2 else dictGet rest k

/-- Dict update of an existing key (in-place `append` on the stored
list rebinds the first binding). -/
def dictSet {α : Type} (d : PyDict α) (k : String) (v : List α) : PyDict α :=
  match d with
  | [] => []
  | kv :: rest => if kv.1 == k then (k, v) :: rest else kv :: dictSet rest k v

/-- `PreviousIngests.is_in_previous_ingests(refdes, missing_date)`
(lines 160-172): if the key is present, membership decides the result,
recording `d` on a miss; if the key is absent, the `except KeyError`
handler itself evaluates `self.previous_ingests[refdes]` again, which
re-raises `KeyError` out of the method — modelled as `.error`. -/
def is_in_previous_ingests {α : Type} [DecidableEq α] (st : PyDict α)
    (refdes : String) (d : α) : Except Unit (Bool × PyDict α) :=
  match dictGet st refdes with
  | some lst =>
    if d ∈ lst then Except.ok (true, st)
    else Except.ok (false, dictSet st refdes (lst ++ [d]))
  | none => Except.error ()

/-- The spec's fused gate `shouldAttempt(ref, slice)`: `main` line 204
uses `not is_in_previous_ingests(...)`, so the gate's polarity is the
negation of the method's return value. -/
def shouldAttempt {α : Type} [DecidableEq α] (st : PyDict α)
    (refdes : String) (d : α) : Except Unit (Bool × PyDict α) :=
  (is_in_previous_ingests st refdes d).map fun br => (!br.1, br.2)

/-! ## Ledger persistence (source lines 154-158) -/

/-- The filesystem as a map from file name to pickled mapping. -/
abbrev FileStore := List (String × PyDict String)

/-- Contents of a file, if it exists. -/
def fsGet (fs : FileStore) (name : String) : Option (PyDict String) :=
  (fs.find? fun kv => kv.1 == name).map Prod.snd

/-- Create or overwrite a file. -/
def fsPut (fs : FileStore) (name : String) (v : PyDict String) : FileStore :=
  if (fs.find? fun kv => kv.1 == name).isSome then
    fs.map fun kv => if kv.1 == name then (name, v) else kv
  else fs ++ [(name, v)]

/-- `PreviousIngests.write_previous_ingests` (lines 157-158):
`pickle.dump(previous_ingests, open("previous_ingests.pickle", "wb"))`. -/
def write_previous_ingests (fs : FileStore) (previous_ingests : PyDict String) :
    FileStore :=
  fsPut fs "previous_ingests.pickle" previous_ingests

/-- `PreviousIngests.load_previous_ingests` (lines 154-155):
`pickle.load(open("previous_ingest.pickle", "rb"))` — note the file name
differs from the one written, `open` raises `FileNotFoundError` when it
is absent (`.error`), and the loaded value is discarded: the method body
has no `return`, so a successful call returns Python `None` (`.ok none`). -/
def load_previous_ingests (fs : FileStore) :
    Except Unit (Option (PyDict String)) :=
  match fsGet fs "previous_ingest.pickle" with
  | none => Except.error ()
  | some _ => Except.ok none

/-! ## The coordinator loop of `main` (source lines 201-207) -/

/-- A `(begin, end)` timestamp pair, as produced by the availability
tool and stored whole in `missing_data_dict[refdes]`. -/
abbrev GapInterval := String × String

/-- One `playback` invocation issued by `main`: the instrument, the
gap interval that triggered it, and the expanded `dates` list handed to
the Replay Executor. -/
abbrev Submission := String × GapInterval × List String

/-- Inner loop of `main` (lines 203-207) for one `refdes`.  Line 204
calls the unqualified name `is_in_previous_ingests`, which is not
defined at module scope — it exists only as an attribute of the
`PreviousIngests` class, and even read as a method call its
`self.previous_ingests` would be an `AttributeError` on the plain dict
passed for `self` — so the first iteration of the loop raises
`NameError` before anything is gated, expanded or submitted, and
lines 205-207 (`date_list`, `playback`) are unreachable.  An empty
`missing_dates` list never reaches line 204 and completes with no
submissions. -/
def processDates (_refdes : String) (st : PyDict GapInterval) :
    List GapInterval → Except Unit (List Submission × PyDict GapInterval)
  | [] => Except.ok ([], st)
  | _ :: _ => Except.error ()

/-- Outer loop of `main` (line 202): iterate `missing_data_dict`
items.  Any entry holding a retained gap interval aborts the run with
the line-204 `NameError`; only a run in which every retained
instrument has an empty interval list terminates normally, and such a
run issues no `playback` submission at all. -/
def coordinator (st : PyDict GapInterval) :
    List (String × List GapInterval) →
    Except Unit (List Submission × PyDict GapInterval)
  | [] => Except.ok ([], st)
  | (refdes, ds) :: rest =>
    match processDates refdes st ds with
    | Except.error e => Except.error e
    | Except.ok (subs, st2) =>
      match coordinator st2 rest with
      | Except.error e => Except.error e
      | Except.ok (subs2, st3) => Except.ok (subs ++ subs2, st3)

/-- The run of `main` from line 182 on, with the durable store `fs`
threaded through (lines 176-207).  `previous_ingests` starts as the
empty dict (line 182); the load branch of lines 184-185 is dead in
every run of the tool, because nothing in the program ever creates a
file named `previous_ingest.pickle` (`write_previous_ingests` writes
`previous_ingests.pickle` and is itself never called).  A run holding
any retained gap interval raises `NameError` at line 204 (see
`processDates`); on the paths that do complete, `main` simply returns:
no persistence call exists anywhere, so the file store is returned
unchanged either way. -/
def main_run (fs : FileStore) (missing_data_dict : List (String × List GapInterval)) :
    Except Unit (List Submission × PyDict GapInterval) × FileStore :=
  (coordinator ([] : PyDict GapInterval) missing_data_dict, fs)

/-! ## Concrete sample inputs used in witnesses and counterexamples -/

/-- Timestamp 0004-01-01 00:00:00 (a small year keeps the unary recursion of
`daysBeforeYear` shallow enough for kernel evaluation in witnesses). -/
def dtStart : PyDateTime :=
  { year := 4, month := 1, day := 1, hour := 0, minute := 0, second := 0 }

/-- Timestamp 0004-01-01 02:00:00. -/
def dtEnd : PyDateTime :=
  { year := 4, month := 1, day := 1, hour := 2, minute := 0, second := 0 }

/-- A gap interval, as the availability tool reports it. -/
def gapA : GapInterval := ("0004-01-01 00:00:00", "0004-01-01 02:00:00")

/-- A second gap interval overlapping `gapA` in its last two hours. -/
def gapB : GapInterval := ("0004-01-01 01:00:00", "0004-01-01 03:00:00")

/-- A catalog table in which one instrument has two distinct reader
types plus a missing-`Type` row, and another instrument one type. -/
def catalogFold : List Row :=
  [{ refDes := "RS01SLBS-LJ01A-05-HYDLFA101", type := "DigiLogger", driver := "drvA" },
   { refDes := "RS01SLBS-LJ01A-05-HYDLFA101", type := "Datalog", driver := "drvA" },
   { refDes := "RS01SLBS-LJ01A-05-HYDLFA101", type := "nan", driver := "drvA" },
   { refDes := "CE02SHBP-LJ01D-06-CTDBPN106", type := "DigiLogger", driver := "drvB" }]

/-- A catalog table whose second row is a continuation row (`Type`
holds the `'None'` sentinel). -/
def catalogCont : List Row :=
  [{ refDes := "RS01SLBS-LJ01A-05-HYDLFA101", type := "DigiLogger", driver := "drvA" },
   { refDes := "RS01SLBS-MJ01A-12-VEL3DB101", type := "None", driver := "drvB" }]

/-- A one-row catalog for exercising `playback`. -/
def catalogPB : List Row :=
  [{ refDes := "RS01SLBS-LJ01A-05-HYDLFA101", type := "DigiLogger", driver := "drvA" }]

/-! ## Calendar lemmas -/

theorem daysInMonth_ge (y m : Nat) (h1 : 1 ≤ m) (h12 : m ≤ 12) :
    28 ≤ daysInMonth y m := by
  unfold daysInMonth
  split_ifs <;> omega

theorem daysBeforeMonth_succ (y m : Nat) :
    daysBeforeMonth y (m + 1) = daysBeforeMonth y m + daysInMonth y m := rfl

theorem daysBeforeMonth_mono (y : Nat) {m m2 : Nat} (h : m ≤ m2) :
    daysBeforeMonth y m ≤ daysBeforeMonth y m2 := by
  induction h with
  | refl => exact Nat.le_refl _
  | step _ ih => exact Nat.le_trans ih (Nat.le_add_right _ _)

theorem daysBeforeYear_succ (y : Nat) :
    daysBeforeYear (y + 1) = daysBeforeYear y + daysInYear y := rfl

theorem daysBeforeYear_mono {y y2 : Nat} (h : y ≤ y2) :
    daysBeforeYear y ≤ daysBeforeYear y2 := by
  induction h with
  | refl => exact Nat.le_refl _
  | step _ ih => exact Nat.le_trans ih (Nat.le_add_right _ _)

theorem dayOfYear_lt (y m d : Nat) (h1 : 1 ≤ m) (h12 : m ≤ 12)
    (hd1 : 1 ≤ d) (hd : d ≤ daysInMonth y m) :
    daysBeforeMonth y m + (d - 1) < daysInYear y := by
  have hs : daysBeforeMonth y (m + 1) = daysBeforeMonth y m + daysInMonth y m :=
    daysBeforeMonth_succ y m
  have hm : daysBeforeMonth y (m + 1) ≤ daysBeforeMonth y 13 :=
    daysBeforeMonth_mono y (by omega)
  unfold daysInYear
  omega

theorem daysBefore_lt_next_year {a : PyDateTime} (ha : validDT a = true) :
    daysBefore a < daysBeforeYear (a.year + 1) := by
  simp only [validDT, Bool.and_eq_true, decide_eq_true_eq] at ha
  have h := dayOfYear_lt a.year a.month a.day (by omega) (by omega) (by omega) (by omega)
  have hy : daysBeforeYear (a.year + 1) = daysBeforeYear a.year + daysInYear a.year :=
    daysBeforeYear_succ a.year
  unfold daysBefore
  omega

/-- Weak monotonicity of the absolute hour index with respect to the
hour-truncated lexicographic order, on valid datetimes. -/
theorem toHours_mono {a b : PyDateTime} (ha : validDT a = true)
    (hb : validDT b = true) (hab : truncLe a b = true) :
    toHours a ≤ toHours b := by
  have hna := daysBefore_lt_next_year ha
  simp only [validDT, Bool.and_eq_true, decide_eq_true_eq] at ha hb
  simp only [truncLe, Bool.or_eq_true, Bool.and_eq_true, decide_eq_true_eq,
    beq_iff_eq] at hab
  unfold toHours
  rcases hab with hy | ⟨hy, hm | ⟨hm, hd | ⟨hd, hh⟩⟩⟩
  · -- year strictly increases
    have h1 : daysBeforeYear (a.year + 1) ≤ daysBeforeYear b.year :=
      daysBeforeYear_mono (by omega)
    have h2 : daysBeforeYear b.year ≤ daysBefore b := by
      unfold daysBefore; omega
    omega
  · -- same year, month strictly increases
    have hs : daysBeforeMonth a.year (a.month + 1) =
        daysBeforeMonth a.year a.month + daysInMonth a.year a.month :=
      daysBeforeMonth_succ a.year a.month
    have hm2 : daysBeforeMonth a.year (a.month + 1) ≤ daysBeforeMonth a.year b.month :=
      daysBeforeMonth_mono a.year (by omega)
    have hdb : daysBefore a < daysBefore b := by
      unfold daysBefore
      rw [← hy]
      omega
    omega
  · -- same year and month, day strictly increases
    have hdb : daysBefore a < daysBefore b := by
      unfold daysBefore
      rw [← hy, ← hm]
      omega
    omega
  · -- same date, hour at most
    have hdb : daysBefore a = daysBefore b := by
      unfold daysBefore
      rw [← hy, ← hm, ← hd]
    omega

theorem addHour_valid {d : PyDateTime} (hd : validDT d = true) :
    validDT (addHour d) = true := by
  have h1 : daysInMonth (d.year + 1) 1 = 31 := by simp [daysInMonth]
  simp only [validDT, Bool.and_eq_true, decide_eq_true_eq] at hd
  have hge := daysInMonth_ge d.year d.month (by omega) (by omega)
  unfold addHour
  split_ifs with hh hday hmon
  · simp only [validDT, Bool.and_eq_true, decide_eq_true_eq]
    omega
  · simp only [validDT, Bool.and_eq_true, decide_eq_true_eq]
    omega
  · have hge2 := daysInMonth_ge d.year (d.month + 1) (by omega) (by omega)
    simp only [validDT, Bool.and_eq_true, decide_eq_true_eq]
    omega
  · simp only [validDT, Bool.and_eq_true, decide_eq_true_eq]
    omega

theorem toHours_addHour {d : PyDateTime} (hd : validDT d = true) :
    toHours (addHour d) = toHours d + 1 := by
  simp only [validDT, Bool.and_eq_true, decide_eq_true_eq] at hd
  have hge := daysInMonth_ge d.year d.month (by omega) (by omega)
  unfold addHour
  split_ifs with hh hday hmon
  · simp only [toHours, daysBefore]
    omega
  · simp only [toHours, daysBefore]
    omega
  · simp only [toHours, daysBefore]
    have hs := daysBeforeMonth_succ d.year d.month
    omega
  · simp only [toHours, daysBefore]
    have hm12 : d.month = 12 := by omega
    have hy := daysBeforeYear_succ d.year
    have h0 : daysBeforeMonth (d.year + 1) 1 = 0 := by
      simp [daysBeforeMonth, daysInMonth]
    have hiy : daysInYear d.year =
        daysBeforeMonth d.year 12 + daysInMonth d.year 12 :=
      daysBeforeMonth_succ d.year 12
    rw [hm12] at hd hday ⊢
    omega

theorem dtLt_irrefl (a : PyDateTime) : dtLt a a = false := by
  simp [dtLt]

theorem truncLe_of_not_dtLt {a b : PyDateTime} (h : dtLt a b = false) :
    truncLe b a = true := by
  simp only [dtLt, Bool.or_eq_false_iff, Bool.and_eq_false_iff,
    decide_eq_false_iff_not, beq_eq_false_iff_ne, ne_eq, Bool.or_eq_false_iff] at h
  simp only [truncLe, Bool.or_eq_true, Bool.and_eq_true, decide_eq_true_eq, beq_iff_eq]
  omega

theorem truncLe_of_dtLt {a b : PyDateTime} (h : dtLt a b = true) :
    truncLe a b = true := by
  simp only [dtLt, Bool.or_eq_true, Bool.and_eq_true, decide_eq_true_eq,
    beq_iff_eq] at h
  simp only [truncLe, Bool.or_eq_true, Bool.and_eq_true, decide_eq_true_eq, beq_iff_eq]
  omega

/-! ## Loop lemmas for `date_list` -/

theorem dateLoop_succ (fuel : Nat) (cur stop : PyDateTime) :
    dateLoop (fuel + 1) cur stop =
      if dtLt cur stop then addHour cur :: dateLoop fuel (addHour cur) stop
      else [] := rfl

theorem dateLoop_spec (stop : PyDateTime) (hstop : validDT stop = true) :
    ∀ (fuel : Nat) (cur : PyDateTime), validDT cur = true →
      toHours stop < toHours cur + fuel →
      (dateLoop fuel cur stop = [] → dtLt cur stop = false) ∧
      (∀ L, (dateLoop fuel cur stop).getLast? = some L →
        dtLt L stop = false ∧ validDT L = true) := by
  intro fuel
  induction fuel with
  | zero =>
    intro cur hcur hbound
    refine ⟨fun _ => ?_, fun L hL => by simp [dateLoop] at hL⟩
    cases hlt : dtLt cur stop with
    | false => rfl
    | true =>
      have := toHours_mono hcur hstop (truncLe_of_dtLt hlt)
      omega
  | succ n ih =>
    intro cur hcur hbound
    by_cases hlt : dtLt cur stop = true
    · have hav := addHour_valid hcur
      have hth := toHours_addHour hcur
      have ihn := ih (addHour cur) hav (by omega)
      rw [dateLoop_succ, if_pos hlt]
      constructor
      · intro hemp
        exact absurd hemp (List.cons_ne_nil _ _)
      · intro L hL
        rcases hrest : dateLoop n (addHour cur) stop with _ | ⟨a, l⟩
        · rw [hrest] at hL
          simp only [List.getLast?_singleton, Option.some.injEq] at hL
          subst hL
          exact ⟨ihn.1 hrest, hav⟩
        · rw [hrest] at hL
          rw [List.getLast?_cons_cons] at hL
          exact ihn.2 L (by rw [hrest]; exact hL)
    · rw [Bool.not_eq_true] at hlt
      rw [dateLoop_succ, if_neg (by simp [hlt])]
      exact ⟨fun _ => hlt, fun L hL => by simp at hL⟩

theorem dateLoop_chain (stop : PyDateTime) :
    ∀ (fuel : Nat) (cur : PyDateTime), validDT cur = true →
      List.Chain' (fun a b => b = addHour a ∧ toHours b = toHours a + 1)
        (cur :: dateLoop fuel cur stop) := by
  intro fuel
  induction fuel with
  | zero => intro cur _; simp [dateLoop]
  | succ n ih =>
    intro cur hcur
    by_cases hlt : dtLt cur stop = true
    · rw [dateLoop_succ, if_pos hlt, List.chain'_cons]
      exact ⟨⟨rfl, toHours_addHour hcur⟩, ih (addHour cur) (addHour_valid hcur)⟩
    · rw [Bool.not_eq_true] at hlt
      rw [dateLoop_succ, if_neg (by simp [hlt])]
      simp

theorem dateLoop_self (fuel : Nat) (s : PyDateTime) : dateLoop fuel s s = [] := by
  cases fuel with
  | zero => rfl
  | succ n => rw [dateLoop_succ, if_neg (by simp [dtLt_irrefl])]

/-- C5: Interval expansion shape.  For every pair of valid datetimes
`(s, e)` with `s ≤ e` (no hypothesis `dtLt e s = false` is Python's
`not (e < s)`), the expansion is non-empty, its first label is `s`
truncated to the hour, consecutive elements of the underlying datetime
sequence differ by exactly one hour (`addHour`, one absolute hour), the
last element's hour is at or after `e`'s hour, and the degenerate case
`s = e` yields exactly one element. -/
theorem C5_expansion_shape (s e : PyDateTime)
    (hs : validDT s = true) (he : validDT e = true)
    (hse : dtLt e s = false) :
    dateListDT s e ≠ [] ∧
    (dateListDT s e).head? = some (strftimeHour s) ∧
    List.Chain' (fun a b => b = addHour a ∧ toHours b = toHours a + 1)
      (dateTimesDT s e) ∧
    (∀ L, (dateTimesDT s e).getLast? = some L → truncLe e L = true) ∧
    (s = e → dateTimesDT s e = [s]) := by
  have hbound : toHours e < toHours s + hourFuel s e := by
    unfold hourFuel; omega
  have hspec := dateLoop_spec e he (hourFuel s e) s hs hbound
  refine ⟨?_, ?_, ?_, ?_, ?_⟩
  · simp [dateListDT, dateTimesDT]
  · simp [dateListDT, dateTimesDT]
  · exact dateLoop_chain e (hourFuel s e) s hs
  · intro L hL
    unfold dateTimesDT at hL
    rcases hrest : dateLoop (hourFuel s e) s e with _ | ⟨a, l⟩
    · rw [hrest] at hL
      simp only [List.getLast?_singleton, Option.some.injEq] at hL
      subst hL
      exact truncLe_of_not_dtLt (hspec.1 hrest)
    · rw [hrest] at hL
      rw [List.getLast?_cons_cons] at hL
      exact truncLe_of_not_dtLt ((hspec.2 L (by rw [hrest]; exact hL)).1)
  · intro hdeg
    subst hdeg
    unfold dateTimesDT
    rw [dateLoop_self]

/-- Witness for C5 at the two-hour interval
0004-01-01 00:00:00 .. 0004-01-01 02:00:00. -/
theorem C5_expansion_shape_witness :
    (validDT dtStart = true ∧ validDT dtEnd = true ∧
     dtLt dtEnd dtStart = false) ∧
    (dateListDT dtStart dtEnd ≠ [] ∧
     (dateListDT dtStart dtEnd).head? = some (strftimeHour dtStart) ∧
     List.Chain' (fun a b => b = addHour a ∧ toHours b = toHours a + 1)
       (dateTimesDT dtStart dtEnd) ∧
     (∀ L, (dateTimesDT dtStart dtEnd).getLast? = some L →
       truncLe dtEnd L = true) ∧
     (dtStart = dtEnd → dateTimesDT dtStart dtEnd = [dtStart])) :=
  ⟨⟨by decide, by decide, by decide⟩,
   C5_expansion_shape dtStart dtEnd (by decide) (by decide) (by decide)⟩

theorem charListLt_asymm :
    ∀ xs ys, charListLt xs ys = true → charListLt ys xs = false := by
  intro xs
  induction xs with
  | nil =>
    intro ys h
    cases ys with
    | nil => simp [charListLt] at h
    | cons d ds => rfl
  | cons c cs ih =>
    intro ys h
    cases ys with
    | nil => simp [charListLt] at h
    | cons d ds =>
      by_cases h1 : c.toNat < d.toNat
      · have hne : (d == c) = false := by
          refine beq_eq_false_iff_ne.mpr fun hdc => ?_
          subst hdc
          omega
        simp [charListLt, hne]
        omega
      · by_cases h2 : c == d
        · have hcd : c = d := beq_iff_eq.mp h2
          subst hcd
          simp only [charListLt, if_neg h1, h2, if_true] at h
          simp [charListLt, h1, ih ds h]
        · simp only [charListLt, if_neg h1, Bool.not_eq_true] at h
          rw [Bool.not_eq_true] at h2
          rw [h2] at h
          simp at h

theorem charListLt_total :
    ∀ xs ys, charListLt xs ys = false → charListLt ys xs = false → xs = ys := by
  intro xs
  induction xs with
  | nil =>
    intro ys h1 _
    cases ys with
    | nil => rfl
    | cons d ds => simp [charListLt] at h1
  | cons c cs ih =>
    intro ys h1 h2
    cases ys with
    | nil => simp [charListLt] at h2
    | cons d ds =>
      by_cases hlt : c.toNat < d.toNat
      · simp [charListLt, hlt] at h1
      · by_cases heq : c == d
        · have hcd : c = d := beq_iff_eq.mp heq
          subst hcd
          simp only [charListLt, if_neg hlt, heq, if_true] at h1 h2
          rw [ih ds h1 h2]
        · exfalso
          have hne : c ≠ d := beq_eq_false_iff_ne.mp (by
            rw [Bool.not_eq_true] at heq; exact heq)
          have htne : c.toNat ≠ d.toNat := fun hn =>
            hne (Char.ext (UInt32.toNat.inj hn))
          have hdc : d.toNat < c.toNat := by omega
          simp [charListLt, hdc] at h2

/-- C9: `date_list` is symmetric in its two string arguments, because
lines 98-99 order the arguments before expanding. -/
theorem C9_date_list_symmetric (a b : String) :
    date_list a b = date_list b a := by
  unfold date_list
  cases h1 : strLt a b with
  | true =>
    have h2 : strLt b a = false := charListLt_asymm a.data b.data h1
    rw [h2]
    simp
  | false =>
    cases h2 : strLt b a with
    | true => simp
    | false =>
      have hab : a = b := by
        have hd : a.data = b.data := charListLt_total a.data b.data h1 h2
        cases a with
        | mk la =>
          cases b with
          | mk lb =>
            simp only [String.data] at hd
            rw [hd]
      subst hab
      rfl

/-! ## Catalog lemmas -/

theorem foldl_readerAppend (l : List Row) (acc : List String) :
    l.foldl (fun reader r => if r.type ≠ "nan" then reader ++ [r.type] else reader)
        acc
      = acc ++ (l.map Row.type).filter (fun t => t != "nan") := by
  induction l generalizing acc with
  | nil => simp
  | cons r rest ih =>
    rw [List.foldl_cons, ih]
    by_cases hr : r.type = "nan"
    · simp [hr]
    · simp [hr]

/-- `get_reader_type` returns exactly the `Type` values of the rows
matching the query, in file order, with the `'nan'` sentinel dropped. -/
theorem get_reader_type_eq (df : List Row) (refdes : String) :
    get_reader_type df refdes =
      ((df.filter fun r => r.refDes == refdes).map Row.type).filter
        (fun t => t != "nan") := by
  unfold get_reader_type
  rw [foldl_readerAppend]
  simp

theorem reader_type_mem {df : List Row} {r : Row} (hmem : r ∈ df)
    (hnan : r.type ≠ "nan") : r.type ∈ get_reader_type df r.refDes := by
  rw [get_reader_type_eq]
  refine List.mem_filter.mpr ⟨List.mem_map.mpr ⟨r, List.mem_filter.mpr ⟨hmem, by simp⟩, rfl⟩, by simp [hnan]⟩

theorem shiftAssign_cons (p : Option String) (r : Row) (rest : List Row) :
    shiftAssign p (r :: rest) =
      (if r.refDes = r.type then { r with refDes := p.getD "nan" } else r) ::
        shiftAssign (some r.refDes) rest := rfl

theorem shiftAssign_getElem_succ :
    ∀ (df : List Row) (p : Option String) (i : Nat) (r1 r2 : Row),
      df[i]? = some r1 → df[i + 1]? = some r2 →
      (shiftAssign p df)[i + 1]? =
        some (if r2.refDes = r2.type then { r2 with refDes := r1.refDes } else r2) := by
  intro df
  induction df with
  | nil => intro p i r1 r2 h1 _; simp at h1
  | cons r rest ih =>
    intro p i r1 r2 h1 h2
    cases i with
    | zero =>
      simp only [List.getElem?_cons_zero, Option.some.injEq] at h1
      subst h1
      rw [List.getElem?_cons_succ] at h2
      rw [shiftAssign_cons, List.getElem?_cons_succ]
      cases rest with
      | nil => simp at h2
      | cons x rest2 =>
        simp only [List.getElem?_cons_zero, Option.some.injEq] at h2
        subst h2
        rw [shiftAssign_cons, List.getElem?_cons_zero]
        simp
    | succ n =>
      rw [List.getElem?_cons_succ] at h1
      rw [List.getElem?_cons_succ] at h2
      rw [shiftAssign_cons, List.getElem?_cons_succ]
      exact ih (some r.refDes) n r1 r2 h1 h2

theorem noneToRefDes_getElem (df : List Row) (i : Nat) :
    (noneToRefDes df)[i]? = df[i]?.map
      (fun r => if r.type = "None" then { r with type := r.refDes } else r) := by
  unfold noneToRefDes
  rw [List.getElem?_map]

/-- Shared derivation: a row whose `Type` holds the `'None'` sentinel
comes out of `request_cabled_raw` with its `Type` replaced by its own
`Reference Designator` and its `Reference Designator` replaced by the
(original) `Reference Designator` of the immediately preceding row. -/
theorem processed_continuation_row (df : List Row) (i : Nat) (r1 r2 : Row)
    (h1 : df[i]? = some r1) (h2 : df[i + 1]? = some r2)
    (hN : r2.type = "None") :
    (request_cabled_raw df)[i + 1]? =
      some { refDes := r1.refDes, type := r2.refDes, driver := r2.driver } := by
  unfold request_cabled_raw
  have g1 : (noneToRefDes df)[i]? =
      some (if r1.type = "None" then { r1 with type := r1.refDes } else r1) := by
    rw [noneToRefDes_getElem, h1]
    rfl
  have g2 : (noneToRefDes df)[i + 1]? = some { r2 with type := r2.refDes } := by
    rw [noneToRefDes_getElem, h2]
    simp [hN]
  have hx : (if r1.type = "None" then { r1 with type := r1.refDes } else r1).refDes
      = r1.refDes := by
    split <;> rfl
  rw [shiftAssign_getElem_succ (noneToRefDes df) none i _ _ g1 g2]
  simp [hx]

/-- C6: Catalog folding.  For every table and InstrumentRef whose
matching rows carry pairwise-distinct non-`'nan'` `Type` values,
`get_reader_type` returns exactly those values in file order, without
duplicates, with the `'nan'`/empty sentinel excluded. -/
theorem C6_catalog_folding (df : List Row) (refdes : String)
    (hnd : (((df.filter fun r => r.refDes == refdes).map Row.type).filter
        (fun t => t != "nan")).Nodup) :
    get_reader_type df refdes =
      ((df.filter fun r => r.refDes == refdes).map Row.type).filter
        (fun t => t != "nan") ∧
    (get_reader_type df refdes).Nodup := by
  have h := get_reader_type_eq df refdes
  exact ⟨h, h ▸ hnd⟩

/-- Witness for C6: an instrument with two distinct reader types and a
`'nan'` row yields both types, in order, and no duplicate. -/
theorem C6_catalog_folding_witness :
    ((((catalogFold.filter
          fun r => r.refDes == "RS01SLBS-LJ01A-05-HYDLFA101").map Row.type).filter
        (fun t => t != "nan")).Nodup) ∧
    (get_reader_type catalogFold "RS01SLBS-LJ01A-05-HYDLFA101" =
      ((catalogFold.filter
          fun r => r.refDes == "RS01SLBS-LJ01A-05-HYDLFA101").map Row.type).filter
        (fun t => t != "nan") ∧
     (get_reader_type catalogFold "RS01SLBS-LJ01A-05-HYDLFA101").Nodup) :=
  ⟨by decide, C6_catalog_folding catalogFold "RS01SLBS-LJ01A-05-HYDLFA101" (by decide)⟩

/-- C10: continuation-row rewrite.  Every source row holding the
`'None'` sentinel in its `Type` column first has its `Type` replaced by
its own Reference Designator (line 54) and then its Reference
Designator replaced by the preceding row's (line 55), so it is folded
as an extra reader type of the preceding row's instrument. -/
theorem C10_continuation_row_rewrite (df : List Row) (i : Nat) (r1 r2 : Row)
    (h1 : df[i]? = some r1) (h2 : df[i + 1]? = some r2)
    (hN : r2.type = "None") :
    (request_cabled_raw df)[i + 1]? =
      some { refDes := r1.refDes, type := r2.refDes, driver := r2.driver } :=
  processed_continuation_row df i r1 r2 h1 h2 hN

/-- Witness for C10 at a concrete two-row table. -/
theorem C10_continuation_row_rewrite_witness :
    (catalogCont[0]? =
        some { refDes := "RS01SLBS-LJ01A-05-HYDLFA101", type := "DigiLogger",
               driver := "drvA" } ∧
     catalogCont[1]? =
        some { refDes := "RS01SLBS-MJ01A-12-VEL3DB101", type := "None",
               driver := "drvB" }) ∧
    (request_cabled_raw catalogCont)[1]? =
      some { refDes := "RS01SLBS-LJ01A-05-HYDLFA101",
             type := "RS01SLBS-MJ01A-12-VEL3DB101", driver := "drvB" } :=
  ⟨⟨rfl, rfl⟩, C10_continuation_row_rewrite catalogCont 0 _ _ rfl rfl rfl⟩

/-- Counterexample to C7: in a table whose second row has the `'None'`
(empty-`Type`) sentinel, the catalog entry for that row's OWN
InstrumentRef has no reader type at all, rather than exactly one equal
to its own InstrumentRef string. -/
theorem C7_degenerate_row_counterexample :
    get_reader_type (request_cabled_raw catalogCont)
      "RS01SLBS-MJ01A-12-VEL3DB101" = [] ∧
    get_reader_type (request_cabled_raw catalogCont)
      "RS01SLBS-MJ01A-12-VEL3DB101" ≠ ["RS01SLBS-MJ01A-12-VEL3DB101"] := by
  decide

/-- C7 as amended: a row with the `'None'` sentinel `Type` yields no
reader type for its own InstrumentRef; instead its own InstrumentRef
string becomes an additional reader type of the PRECEDING row's
instrument entry. -/
theorem C7_degenerate_row_amended (df : List Row) (i : Nat) (r1 r2 : Row)
    (h1 : df[i]? = some r1) (h2 : df[i + 1]? = some r2)
    (hN : r2.type = "None") (hnn : r2.refDes ≠ "nan") :
    r2.refDes ∈ get_reader_type (request_cabled_raw df) r1.refDes := by
  have hrow := processed_continuation_row df i r1 r2 h1 h2 hN
  have hmem : ({ refDes := r1.refDes, type := r2.refDes, driver := r2.driver } : Row)
      ∈ request_cabled_raw df := List.getElem?_mem hrow
  exact reader_type_mem hmem hnn

/-- Witness for the amended C7 at the concrete two-row table. -/
theorem C7_degenerate_row_amended_witness :
    (catalogCont[1]? =
        some { refDes := "RS01SLBS-MJ01A-12-VEL3DB101", type := "None",
               driver := "drvB" } ∧
     ("RS01SLBS-MJ01A-12-VEL3DB101" : String) ≠ "nan") ∧
    "RS01SLBS-MJ01A-12-VEL3DB101" ∈
      get_reader_type (request_cabled_raw catalogCont)
        "RS01SLBS-LJ01A-05-HYDLFA101" :=
  ⟨⟨rfl, by decide⟩,
   C7_degenerate_row_amended catalogCont 0 _ _ rfl rfl rfl (by decide)⟩

/-- C2: the fused ledger gate.  When the mapping has no entry at all
for the InstrumentRef, the `except KeyError` handler itself indexes the
missing key again and the method raises `KeyError` out of the call
(contradicting its own comment "so still return false"); when an entry
exists, the fused gate behaves as the claim states: `shouldAttempt`
(the negation of `is_in_previous_ingests` used at line 204) returns
`true` then `false`, the pair is recorded exactly once, and the second
call leaves the mapping unchanged. -/
theorem C2_ledger_gate_keyerror :
    is_in_previous_ingests ([] : PyDict String)
        "RS01SLBS-LJ01A-05-HYDLFA101" "20200101T00" = Except.error () ∧
    shouldAttempt [("RS01SLBS-LJ01A-05-HYDLFA101", ([] : List String))]
        "RS01SLBS-LJ01A-05-HYDLFA101" "20200101T00"
      = Except.ok (true, [("RS01SLBS-LJ01A-05-HYDLFA101", ["20200101T00"])]) ∧
    shouldAttempt [("RS01SLBS-LJ01A-05-HYDLFA101", ["20200101T00"])]
        "RS01SLBS-LJ01A-05-HYDLFA101" "20200101T00"
      = Except.ok (false, [("RS01SLBS-LJ01A-05-HYDLFA101", ["20200101T00"])]) :=
  ⟨rfl, rfl, rfl⟩

/-- C3: the persistence round trip fails.  `write_previous_ingests`
writes `previous_ingests.pickle` while `load_previous_ingests` opens
`previous_ingest.pickle` — on a fresh store the reload raises
`FileNotFoundError`; and even when that file exists, the method
discards the unpickled value and returns `None`, never the persisted
mapping. -/
theorem C3_persistence_roundtrip_fails :
    load_previous_ingests (write_previous_ingests []
        [("RS01SLBS-LJ01A-05-HYDLFA101", ["20200101T00"])]) = Except.error () ∧
    load_previous_ingests (write_previous_ingests
        [("previous_ingest.pickle", [])]
        [("RS01SLBS-LJ01A-05-HYDLFA101", ["20200101T00"])]) = Except.ok none ∧
    load_previous_ingests (write_previous_ingests []
        [("RS01SLBS-LJ01A-05-HYDLFA101", ["20200101T00"])]) ≠
      Except.ok (some [("RS01SLBS-LJ01A-05-HYDLFA101", ["20200101T00"])]) := by
  refine ⟨rfl, rfl, ?_⟩
  intro h
  exact Except.noConfusion h

/-- C4: `main` contains no persistence call: the durable store after a
run — on every path, including normal completion with all instruments
processed — is identical to the store before it; `write_previous_ingests`
is never invoked. -/
theorem C4_no_persist_call (fs : FileStore)
    (missing_data_dict : List (String × List GapInterval)) :
    (main_run fs missing_data_dict).2 = fs := rfl

/-! ## The coordinator loop never completes a submission -/

/-- Every run of the coordinator loop that terminates normally has
submitted nothing: the only paths that avoid the line-204 `NameError`
are those in which every retained instrument has an empty interval
list, and those paths issue no `playback` call. -/
theorem coordinator_ok_no_submission :
    ∀ (m : List (String × List GapInterval)) (st : PyDict GapInterval)
      (subs : List Submission) (fin : PyDict GapInterval),
      coordinator st m = Except.ok (subs, fin) → subs = [] := by
  intro m
  induction m with
  | nil =>
    intro st subs fin h
    simp only [coordinator, Except.ok.injEq, Prod.mk.injEq] at h
    exact h.1.symm
  | cons entry rest ih =>
    obtain ⟨refdes, ds⟩ := entry
    intro st subs fin h
    simp only [coordinator] at h
    cases ds with
    | nil =>
      simp only [processDates] at h
      cases hB : coordinator st rest with
      | error e => rw [hB] at h; simp at h
      | ok pr =>
        obtain ⟨subsB, st3⟩ := pr
        rw [hB] at h
        simp only [List.nil_append, Except.ok.injEq, Prod.mk.injEq] at h
        rw [← h.1]
        exact ih st subsB st3 hB
    | cons d ds2 =>
      simp only [processDates] at h
      simp at h

/-- C1: no per-slice gate exists, and the run crashes at the first
gated interval.  Line 204's unqualified `is_in_previous_ingests` is
undefined at module scope, so a run holding any retained gap interval
raises `NameError` before a single TimeSlice is gated or passed to the
Replay Executor; consequently every run that does terminate normally
has submitted nothing at all — the claimed expand-then-gate-per-slice
mechanism never executes. -/
theorem C1_gate_name_error :
    coordinator ([] : PyDict GapInterval)
        [("RS01SLBS-LJ01A-05-HYDLFA101", [gapA, gapB])] = Except.error () ∧
    main_run [] [("RS01SLBS-LJ01A-05-HYDLFA101", [gapA, gapB])]
      = (Except.error (), ([] : FileStore)) ∧
    (∀ (st : PyDict GapInterval) (m : List (String × List GapInterval))
       (subs : List Submission) (fin : PyDict GapInterval),
       coordinator st m = Except.ok (subs, fin) → subs = []) :=
  ⟨rfl, rfl, fun st m subs fin h => coordinator_ok_no_submission m st subs fin h⟩

/-- Witness for C1: a run whose only retained instrument has an empty
interval list is the one kind of run that terminates normally, and it
submits nothing. -/
theorem C1_gate_name_error_witness :
    (coordinator ([] : PyDict GapInterval)
        [("RS01SLBS-LJ01A-05-HYDLFA101", ([] : List GapInterval))]
      = Except.ok ([], [])) ∧ ([] : List Submission) = [] :=
  ⟨rfl,
   C1_gate_name_error.2.2 [] [("RS01SLBS-LJ01A-05-HYDLFA101", [])] [] [] rfl⟩

/-! ## `playback` log lemmas -/

theorem infoEntries_append (l1 l2 : List LogEntry) :
    infoEntries (l1 ++ l2) = infoEntries l1 ++ infoEntries l2 := by
  unfold infoEntries
  rw [List.filterMap_append]

theorem infoEntries_flatMap {α : Type} (l : List α) (f : α → List LogEntry) :
    infoEntries (l.flatMap f) = l.flatMap fun x => infoEntries (f x) := by
  induction l with
  | nil => rfl
  | cons x xs ih =>
    rw [List.flatMap_cons, List.flatMap_cons, ← ih]
    exact infoEntries_append (f x) (xs.flatMap f)

theorem flatMap_congr_local {α β : Type} (l : List α) (f g : α → List β)
    (h : ∀ a ∈ l, f a = g a) : l.flatMap f = l.flatMap g := by
  induction l with
  | nil => rfl
  | cons x xs ih =>
    rw [List.flatMap_cons, List.flatMap_cons, h x (by simp),
      ih fun a ha => h a (by simp [ha])]

/-- The info lines of one (reader, date) block do not depend on the
duration oracle. -/
theorem infoEntries_block (g : Bool) (dx : Nat) (cmd2 : String) :
    infoEntries (if g then (if 90 < dx then
        [LogEntry.info cmd2, LogEntry.warning (cmd2 ++
          " Took more than 90 seconds. Timing out this ingestion.")]
      else [LogEntry.info cmd2]) else []) = if g then [cmd2] else [] := by
  cases g <;> by_cases h : 90 < dx <;> simp [infoEntries, h]

theorem block_info_mem (g : Bool) (dx : Nat) (cmd cmd2 : String)
    (hmem : LogEntry.info cmd ∈ (if g then (if 90 < dx then
        [LogEntry.info cmd2, LogEntry.warning (cmd2 ++
          " Took more than 90 seconds. Timing out this ingestion.")]
      else [LogEntry.info cmd2]) else [])) :
    cmd = cmd2 ∧ g = true := by
  cases g with
  | false => simp at hmem
  | true =>
    by_cases h : 90 < dx <;> simp [h] at hmem <;> simp [hmem]

theorem block_warning_mem (dx : Nat) (cmd2 : String) (ht : 90 < dx) :
    LogEntry.warning (cmd2 ++
        " Took more than 90 seconds. Timing out this ingestion.") ∈
      (if true then (if 90 < dx then
        [LogEntry.info cmd2, LogEntry.warning (cmd2 ++
          " Took more than 90 seconds. Timing out this ingestion.")]
      else [LogEntry.info cmd2]) else ([] : List LogEntry)) := by
  simp [ht]

theorem length_flatMap_ite {α β : Type} (l : List α) (p : α → Bool) (f : α → β) :
    (l.flatMap fun a => if p a then [f a] else []).length
      = (l.filter p).length := by
  induction l with
  | nil => rfl
  | cons x xs ih =>
    by_cases hx : p x <;> simp [hx, List.flatMap_cons, List.filter_cons, ih]

theorem length_flatMap_const {α β : Type} (l : List α) (f : α → List β) (k : Nat)
    (h : ∀ a ∈ l, (f a).length = k) : (l.flatMap f).length = l.length * k := by
  induction l with
  | nil => simp
  | cons x xs ih =>
    rw [List.flatMap_cons, List.length_append, h x (by simp),
      ih fun a ha => h a (by simp [ha]), List.length_cons, Nat.succ_mul,
      Nat.add_comm]

/-- C8: timeout isolation.  For every run of `playback`, (i) which
commands are attempted (the info-level log) is independent of the
duration oracle — a timed-out invocation is abandoned and the loop
continues with every remaining (reader type, slice) pair, and the
timeout never escalates (the result is still `Except.ok`); (ii) every
attempted invocation that exceeds 90 seconds leaves a warning naming
its full command; (iii) each matched (reader type, slice) pair is
attempted exactly once (no retry within the run). -/
theorem C8_timeout_isolation (df : List Row) (refdes eu pu : String)
    (dates : List String) (globM : String → Bool) (d1 : String → Nat)
    (logs1 : List LogEntry)
    (h1 : playback df refdes eu pu dates globM d1 = Except.ok logs1) :
    (∀ d2 : String → Nat, ∃ logs2,
        playback df refdes eu pu dates globM d2 = Except.ok logs2) ∧
    (∀ (d2 : String → Nat) (logs2 : List LogEntry),
        playback df refdes eu pu dates globM d2 = Except.ok logs2 →
        infoEntries logs2 = infoEntries logs1) ∧
    (∀ cmd, LogEntry.info cmd ∈ logs1 → 90 < d1 cmd →
        LogEntry.warning (cmd ++
          " Took more than 90 seconds. Timing out this ingestion.") ∈ logs1) ∧
    (infoEntries logs1).length =
      (get_reader_type df refdes).length *
        (dates.filter fun date =>
          globM ("/".intercalate
              ["/rsn_cabled/rsn_data/DVT_Data",
               pyLower (((pySplit refdes '-').get? 1).getD ""),
               ((pySplit refdes '-').get? 3).getD ""]
            ++ "*".intercalate ["", date, ""])).length := by
  simp only [playback] at h1
  cases hdrv : get_driver df refdes with
  | none => rw [hdrv] at h1; simp at h1
  | some driver =>
    rw [hdrv] at h1
    dsimp only at h1
    cases hn : (pySplit refdes '-').get? 1 with
    | none => rw [hn] at h1; simp at h1
    | some nodePart =>
      rw [hn] at h1
      cases hi : (pySplit refdes '-').get? 3 with
      | none => rw [hi] at h1; simp at h1
      | some instrument =>
        rw [hi] at h1
        dsimp only at h1
        simp only [Except.ok.injEq] at h1
        subst h1
        refine ⟨?_, ?_, ?_, ?_⟩
        · intro d2
          simp only [playback, hdrv, hn, hi]
          exact ⟨_, rfl⟩
        · intro d2 logs2 h2
          simp only [playback] at h2
          rw [hdrv] at h2
          dsimp only at h2
          rw [hn, hi] at h2
          dsimp only at h2
          simp only [Except.ok.injEq] at h2
          subst h2
          rw [infoEntries_flatMap, infoEntries_flatMap]
          refine flatMap_congr_local _ _ _ fun reader _ => ?_
          rw [infoEntries_flatMap, infoEntries_flatMap]
          refine flatMap_congr_local _ _ _ fun date _ => ?_
          rw [infoEntries_block, infoEntries_block]
        · intro cmd hmem ht
          rcases List.mem_flatMap.mp hmem with ⟨reader, hr, hm⟩
          rcases List.mem_flatMap.mp hm with ⟨date, hdte, hm2⟩
          obtain ⟨hcmd, hg⟩ := block_info_mem _ _ _ _ hm2
          refine List.mem_flatMap.mpr
            ⟨reader, hr, List.mem_flatMap.mpr ⟨date, hdte, ?_⟩⟩
          rw [hg, hcmd]
          rw [hcmd] at ht
          exact block_warning_mem _ _ ht
        · rw [infoEntries_flatMap]
          simp only [infoEntries_flatMap, infoEntries_block]
          rw [length_flatMap_const _ _
            ((dates.filter fun date =>
              globM ("/".intercalate
                  ["/rsn_cabled/rsn_data/DVT_Data", pyLower nodePart, instrument]
                ++ "*".intercalate ["", date, ""])).length)
            (fun reader _ => length_flatMap_ite dates _ _)]
          simp only [Option.getD_some]

/-- Witness for C8: one reader type, one slice, data present, and an
invocation lasting 120 seconds: the command is info-logged, the timeout
warning naming the full command follows, and `playback` still returns
normally. -/
theorem C8_timeout_isolation_witness :
    (playback catalogPB "RS01SLBS-LJ01A-05-HYDLFA101" "ev" "pa" ["00040101T00"]
        (fun _ => true) (fun _ => 120) = Except.ok
      [LogEntry.info "playback DigiLogger drvA RS01SLBS-LJ01A-05-HYDLFA101 ev pa /rsn_cabled/rsn_data/DVT_Data/lj01a/HYDLFA101*00040101T00*",
       LogEntry.warning ("playback DigiLogger drvA RS01SLBS-LJ01A-05-HYDLFA101 ev pa /rsn_cabled/rsn_data/DVT_Data/lj01a/HYDLFA101*00040101T00*"
         ++ " Took more than 90 seconds. Timing out this ingestion.")]) ∧
    (∀ cmd, LogEntry.info cmd ∈
        [LogEntry.info "playback DigiLogger drvA RS01SLBS-LJ01A-05-HYDLFA101 ev pa /rsn_cabled/rsn_data/DVT_Data/lj01a/HYDLFA101*00040101T00*",
         LogEntry.warning ("playback DigiLogger drvA RS01SLBS-LJ01A-05-HYDLFA101 ev pa /rsn_cabled/rsn_data/DVT_Data/lj01a/HYDLFA101*00040101T00*"
           ++ " Took more than 90 seconds. Timing out this ingestion.")] →
      (90 : Nat) < 120 →
      LogEntry.warning (cmd ++
          " Took more than 90 seconds. Timing out this ingestion.") ∈
        [LogEntry.info "playback DigiLogger drvA RS01SLBS-LJ01A-05-HYDLFA101 ev pa /rsn_cabled/rsn_data/DVT_Data/lj01a/HYDLFA101*00040101T00*",
         LogEntry.warning ("playback DigiLogger drvA RS01SLBS-LJ01A-05-HYDLFA101 ev pa /rsn_cabled/rsn_data/DVT_Data/lj01a/HYDLFA101*00040101T00*"
           ++ " Took more than 90 seconds. Timing out this ingestion.")]) :=
  ⟨rfl,
   (C8_timeout_isolation catalogPB "RS01SLBS-LJ01A-05-HYDLFA101" "ev" "pa"
      ["00040101T00"] (fun _ => true) (fun _ => 120)
      [LogEntry.info "playback DigiLogger drvA RS01SLBS-LJ01A-05-HYDLFA101 ev pa /rsn_cabled/rsn_data/DVT_Data/lj01a/HYDLFA101*00040101T00*",
       LogEntry.warning ("playback DigiLogger drvA RS01SLBS-LJ01A-05-HYDLFA101 ev pa /rsn_cabled/rsn_data/DVT_Data/lj01a/HYDLFA101*00040101T00*"
         ++ " Took more than 90 seconds. Timing out this ingestion.")]
      rfl).2.2.1⟩
